import Mathlib

/-!
Verification of the assumption-driven statistical test Selector of the Ames
Housing ANOVA dashboard (file dashboard_anova.py, function
perform_anova_for_variable, and the per-variable analysis loop of the UI).

The Selector receives a two-column sample (factor level, response value),
removes rows with a missing entry, rejects samples with fewer than 2 distinct
levels or fewer than 10 observations, fits a one-way ANOVA model, evaluates
residual normality (Shapiro-Wilk for 3..5000 residuals, Anderson-Darling
above 5000), evaluates variance homogeneity (Levene test over groups with at
least 2 observations), and conditionally runs the Kruskal-Wallis test.

The statistics library (statsmodels / scipy) is modelled as an oracle
structure whose operations may fail, mirroring Python exceptions with
Except; the decision logic of the repository is translated faithfully,
including the order in which the per-variable results dictionary acquires
its entries, so that a run interrupted by a library exception leaves
exactly the entries written before the raise.  Numeric values are rationals.
Rendering code (histogram, QQ-plot, boxplot) carries no decision logic and
is out of scope per the spec.
-/

namespace AmesAnova

/-- A factor level: a category value of the chosen variable. -/
abbrev Level := Nat

/-- A fitted OLS model as the Selector consumes it: only the residual
vector (modelo.resid) is inspected after the fit. -/
structure OlsModel where
  resid : List ℚ

/-- Result object of scipy.stats.anderson: a test statistic, an array of
critical values, and the matching array of significance levels. -/
structure AndersonResult where
  statistic : ℚ
  critical_values : List ℚ
  significance_level : List ℚ

/-- The statistics-library oracle: ols(...).fit, anova_lm, shapiro,
anderson, levene and kruskal.  Each call may raise (Except.error carrying
the exception message), exactly like the Python bindings. -/
structure StatsLib where
  ols_fit : List (Level × ℚ) → Except String OlsModel
  anova_lm : OlsModel → Except String (List (String × ℚ))
  shapiro : List ℚ → Except String (ℚ × ℚ)
  anderson : List ℚ → Except String AndersonResult
  levene : List (List ℚ) → Except String (ℚ × ℚ)
  kruskal : List (List ℚ) → Except String (ℚ × ℚ)

/-- The Decision Record: the results dictionary built by
perform_anova_for_variable.  A field is none when the corresponding key was
never written.  The key p_valor_anova is written with value None when the
ANOVA table has no usable row, hence the nested Option. -/
structure AnovaResults where
  var_cat : String := ""
  error : Option String := none
  anova_table : Option (List (String × ℚ)) := none
  p_valor_anova : Option (Option ℚ) := none
  residuos_count : Option Nat := none
  shapiro_test : Option (ℚ × ℚ) := none
  anderson_test : Option AndersonResult := none
  normalidade_ok : Option Bool := none
  levene_test : Option (ℚ × ℚ) := none
  homocedasticidade_ok : Option Bool := none
  kruskal_test : Option (ℚ × ℚ) := none

/-- Pairwise removal of rows with a missing factor or missing response
(df_var.dropna in the source). -/
def dropna (rows : List (Option Level × Option ℚ)) : List (Level × ℚ) :=
  rows.filterMap fun r =>
    match r with
    | (some lv, some y) => some (lv, y)
    | _ => none

/-- Number of distinct values (pandas nunique). -/
def nunique (xs : List Level) : Nat :=
  xs.eraseDups.length

/-- The label of the factor term in the ANOVA table: C(var_cat). -/
def factorLabel (var_cat : String) : String :=
  "C(" ++ var_cat ++ ")"

/-- Selection of the reported main-effect p-value from the ANOVA table
(source lines 82-87): the PR(>F) entry of the row labelled C(var_cat) when
present, else the first row of a nonempty table, else None. -/
def p_from_table (var_cat : String) (table : List (String × ℚ)) : Option ℚ :=
  match table.find? (fun row => decide (row.1 = factorLabel var_cat)) with
  | some row => some row.2
  | none => table.head?.map Prod.snd

/-- The distinct factor levels in order of first appearance
(df_var[var_cat].unique()). -/
def uniqueLevels (df_var : List (Level × ℚ)) : List Level :=
  (df_var.map Prod.fst).eraseDups

/-- Partition of the response values by factor level (source line 124). -/
def grupos (df_var : List (Level × ℚ)) : List (List ℚ) :=
  (uniqueLevels df_var).map fun categoria =>
    (df_var.filter fun r => decide (r.1 = categoria)).map Prod.snd

/-- The valid groups: levels retaining at least 2 observations
(source line 125). -/
def grupos_validos (df_var : List (Level × ℚ)) : List (List ℚ) :=
  (grupos df_var).filter fun g => decide (2 ≤ g.length)

/-- The record state right after the ANOVA table, the selected p-value and
the residual count are written (source lines 80-90). -/
def withTable (var_cat : String) (m : OlsModel) (table : List (String × ℚ)) :
    AnovaResults :=
  { var_cat := var_cat,
    anova_table := some table,
    p_valor_anova := some (p_from_table var_cat table),
    residuos_count := some m.resid.length }

/-- Residual normality check (source lines 93-105).  Returns the updated
record and the normality verdict, or the record as written up to the raise
together with the exception message.  The lookup of the 5.0 entry in the
significance levels mirrors list.index, which raises when absent, and the
critical-value access mirrors array indexing, which raises out of range. -/
def normStep (lib : StatsLib) (residuos : List ℚ) (r : AnovaResults) :
    Except (AnovaResults × String) (AnovaResults × Bool) :=
  if 3 ≤ residuos.length then
    if residuos.length ≤ 5000 then
      match lib.shapiro residuos with
      | .error e => .error (r, e)
      | .ok (stat_shapiro, p_shapiro) =>
          .ok ({ r with shapiro_test := some (stat_shapiro, p_shapiro) },
               decide (mkRat 5 100 ≤ p_shapiro))
    else
      match lib.anderson residuos with
      | .error e => .error (r, e)
      | .ok ad =>
          match ad.significance_level.findIdx? (fun s => decide (s = (5 : ℚ))) with
          | none => .error ({ r with anderson_test := some ad }, "5.0 is not in list")
          | some sig_level_idx =>
              match ad.critical_values[sig_level_idx]? with
              | none => .error ({ r with anderson_test := some ad }, "index out of range")
              | some cv =>
                  .ok ({ r with anderson_test := some ad }, decide (ad.statistic < cv))
  else
    .ok (r, false)

/-- Variance homogeneity check (source lines 123-129) over the already
filtered valid groups: Levene when at least 2 valid groups remain, else the
verdict stays false and no test entry is written. -/
def homStep (lib : StatsLib) (gv : List (List ℚ)) (r : AnovaResults) :
    Except (AnovaResults × String) (AnovaResults × Bool) :=
  if 2 ≤ gv.length then
    match lib.levene gv with
    | .error e => .error (r, e)
    | .ok (stat_levene, p_levene) =>
        .ok ({ r with levene_test := some (stat_levene, p_levene) },
             decide (mkRat 5 100 ≤ p_levene))
  else
    .ok (r, false)

/-- Conditional Kruskal-Wallis fallback (source lines 133-136): run over the
same valid groups when normality or homogeneity failed and at least 2 valid
groups exist. -/
def kwStep (lib : StatsLib) (gv : List (List ℚ))
    (normalidade_ok homocedasticidade_ok : Bool) (r : AnovaResults) :
    Except (AnovaResults × String) AnovaResults :=
  if !normalidade_ok || !homocedasticidade_ok then
    if 2 ≤ gv.length then
      match lib.kruskal gv with
      | .error e => .error (r, e)
      | .ok res => .ok { r with kruskal_test := some res }
    else .ok r
  else .ok r

/-- The body of the try block of perform_anova_for_variable (source lines
78-136): model fit, ANOVA decomposition, p-value selection, normality,
homogeneity, conditional fallback.  An error result carries the record as
written before the raise. -/
def perform_body (lib : StatsLib) (var_cat : String)
    (df_var : List (Level × ℚ)) : Except (AnovaResults × String) AnovaResults :=
  match lib.ols_fit df_var with
  | .error e => .error ({ var_cat := var_cat }, e)
  | .ok modelo =>
    match lib.anova_lm modelo with
    | .error e => .error ({ var_cat := var_cat }, e)
    | .ok table =>
      match normStep lib modelo.resid (withTable var_cat modelo table) with
      | .error re => .error re
      | .ok (r2, normalidade_ok) =>
        match homStep lib (grupos_validos df_var)
            { r2 with normalidade_ok := some normalidade_ok } with
        | .error re => .error re
        | .ok (r4, homocedasticidade_ok) =>
          kwStep lib (grupos_validos df_var) normalidade_ok homocedasticidade_ok
            { r4 with homocedasticidade_ok := some homocedasticidade_ok }

/-- The rejection message of the insufficiency guard (source line 74). -/
def insufficientMsg : String :=
  "Dados insuficientes ou poucos níveis para análise após limpeza."

/-- The Selector, perform_anova_for_variable (source lines 61-160): drop
rows with missing entries, reject insufficient samples before any library
call, otherwise run the body and attach any exception message to the
record (the except branch of the source). -/
def perform_anova_for_variable (lib : StatsLib) (var_cat : String)
    (rows : List (Option Level × Option ℚ)) : AnovaResults :=
  let df_var := dropna rows
  if nunique (df_var.map Prod.fst) < 2 ∨ df_var.length < 10 then
    { var_cat := var_cat, error := some insufficientMsg }
  else
    match perform_body lib var_cat df_var with
    | .ok r => r
    | .error (r, e) => { r with error := some e }

/-- Outcome of one iteration of the per-variable analysis loop: skipped by
the pre-check warning, or analyzed with a Decision Record. -/
inductive VarOutcome
  | skipped
  | analyzed (r : AnovaResults)

/-- One iteration of the analysis loop (source lines 194-209): clean the
two-column slice, skip when empty or single-level, else call the
Selector. -/
def analyze_one (lib : StatsLib) (data : String → List (Option Level × Option ℚ))
    (v : String) : VarOutcome :=
  let df_analise_var := dropna (data v)
  if df_analise_var.isEmpty ∨ nunique (df_analise_var.map Prod.fst) < 2 then
    .skipped
  else
    .analyzed (perform_anova_for_variable lib v
      (df_analise_var.map fun r => (some r.1, some r.2)))

/-- The per-variable analysis loop over the selected variables. -/
def analysis_loop (lib : StatsLib)
    (data : String → List (Option Level × Option ℚ))
    (selected : List String) : List (String × VarOutcome) :=
  selected.map fun v => (v, analyze_one lib data v)

/-! Concrete fixtures used by the witness theorems: a 10-row sample with two
levels of 5 observations each (plus two rows with a missing entry), and a
total oracle returning fixed values. -/

/-- Concrete sample: two levels with 5 observations each plus two rows with
a missing entry. -/
def testRows : List (Option Level × Option ℚ) :=
  [(some 0, some 1), (some 0, some 2), (some 0, some 3), (some 0, some 4),
   (some 0, some 5), (some 1, some 6), (some 1, some 7), (some 1, some 8),
   (some 1, some 9), (some 1, some 10), (none, some 11), (some 2, none)]

/-- Concrete ANOVA table with a factor row and a residual row. -/
def testTable : List (String × ℚ) := [("C(x)", mkRat 1 2), ("Residual", mkRat 3 4)]

/-- Concrete total oracle; its shapiro p-value 1/100 is below the 0.05
threshold, so the fallback branch is exercised. -/
def testLib : StatsLib :=
  { ols_fit := fun df => .ok { resid := df.map Prod.snd },
    anova_lm := fun _ => .ok testTable,
    shapiro := fun _ => .ok (mkRat 9 10, mkRat 1 100),
    anderson := fun _ => .ok { statistic := 1, critical_values := [mkRat 1 2],
                               significance_level := [5] },
    levene := fun _ => .ok (1, mkRat 1 2),
    kruskal := fun _ => .ok (2, mkRat 1 25) }

/-- Concrete oracle whose levene call raises, for the error-containment
witness. -/
def failLib : StatsLib :=
  { testLib with levene := fun _ => .error "levene failed" }

/-- Concrete oracle whose anova table is empty, for the first-row fallback
reasoning. -/
def emptyTableLib : StatsLib :=
  { testLib with anova_lm := fun _ => .ok [] }

/-- Concrete sample with a single valid group: one level with 9
observations and one level with a single observation. -/
def oneGroupRows : List (Option Level × Option ℚ) :=
  [(some 0, some 1), (some 0, some 2), (some 0, some 3), (some 0, some 4),
   (some 0, some 5), (some 0, some 6), (some 0, some 7), (some 0, some 8),
   (some 0, some 9), (some 1, some 10)]

/-- Concrete sample with a single level, used for rejection witnesses. -/
def oneLevelRows : List (Option Level × Option ℚ) :=
  [(some 0, some 1), (some 0, some 2), (some 0, some 3), (some 0, some 4),
   (some 0, some 5), (some 0, some 6), (some 0, some 7), (some 0, some 8),
   (some 0, some 9), (some 0, some 10)]

/-! Characterization lemmas for the three decision steps: every outcome of
a step is one of finitely many record shapes. -/

theorem normStep_cases (lib : StatsLib) (res : List ℚ) (r : AnovaResults) :
    (∃ e, normStep lib res r = .error (r, e)) ∨
    (∃ ad e, normStep lib res r = .error ({ r with anderson_test := some ad }, e)) ∨
    (∃ sp, normStep lib res r =
      .ok ({ r with shapiro_test := some sp }, decide (mkRat 5 100 ≤ sp.2))) ∨
    (∃ ad b, normStep lib res r = .ok ({ r with anderson_test := some ad }, b)) ∨
    normStep lib res r = .ok (r, false) := by
  unfold normStep
  split
  · split
    · split
      · exact Or.inl ⟨_, rfl⟩
      · exact Or.inr (Or.inr (Or.inl ⟨_, rfl⟩))
    · split
      · exact Or.inl ⟨_, rfl⟩
      · split
        · exact Or.inr (Or.inl ⟨_, _, rfl⟩)
        · split
          · exact Or.inr (Or.inl ⟨_, _, rfl⟩)
          · exact Or.inr (Or.inr (Or.inr (Or.inl ⟨_, _, rfl⟩)))
  · exact Or.inr (Or.inr (Or.inr (Or.inr rfl)))

theorem homStep_cases (lib : StatsLib) (gv : List (List ℚ)) (r : AnovaResults) :
    (∃ e, homStep lib gv r = .error (r, e)) ∨
    (2 ≤ gv.length ∧ ∃ sp, homStep lib gv r =
      .ok ({ r with levene_test := some sp }, decide (mkRat 5 100 ≤ sp.2))) ∨
    (gv.length < 2 ∧ homStep lib gv r = .ok (r, false)) := by
  unfold homStep
  split
  · rename_i hlen
    split
    · exact Or.inl ⟨_, rfl⟩
    · exact Or.inr (Or.inl ⟨hlen, _, rfl⟩)
  · rename_i hlen
    exact Or.inr (Or.inr ⟨by omega, rfl⟩)

theorem kwStep_cases (lib : StatsLib) (gv : List (List ℚ)) (n hm : Bool)
    (r : AnovaResults) :
    (∃ e, kwStep lib gv n hm r = .error (r, e)) ∨
    ((!n || !hm) = true ∧ 2 ≤ gv.length ∧
      ∃ res, kwStep lib gv n hm r = .ok { r with kruskal_test := some res }) ∨
    kwStep lib gv n hm r = .ok r := by
  unfold kwStep
  split
  · rename_i hcond
    split
    · rename_i hlen
      split
      · exact Or.inl ⟨_, rfl⟩
      · exact Or.inr (Or.inl ⟨hcond, hlen, _, rfl⟩)
    · exact Or.inr (Or.inr rfl)
  · exact Or.inr (Or.inr rfl)

/-! Shape lemmas: what a step result record can look like. -/

theorem normStep_err_shape (lib : StatsLib) (res : List ℚ) (r r' : AnovaResults)
    (e : String) (h : normStep lib res r = .error (r', e)) :
    r' = r ∨ ∃ ad, r' = { r with anderson_test := some ad } := by
  rcases normStep_cases lib res r with
      ⟨e', heq⟩ | ⟨ad, e', heq⟩ | ⟨sp, heq⟩ | ⟨ad, b', heq⟩ | heq <;> rw [heq] at h
  · simp only [Except.error.injEq, Prod.mk.injEq] at h
    exact Or.inl h.1.symm
  · simp only [Except.error.injEq, Prod.mk.injEq] at h
    exact Or.inr ⟨ad, h.1.symm⟩
  · exact absurd h (by simp)
  · exact absurd h (by simp)
  · exact absurd h (by simp)

theorem normStep_ok_shape (lib : StatsLib) (res : List ℚ) (r r' : AnovaResults)
    (b : Bool) (h : normStep lib res r = .ok (r', b)) :
    r' = r ∨ (∃ sp, r' = { r with shapiro_test := some sp }) ∨
    ∃ ad, r' = { r with anderson_test := some ad } := by
  rcases normStep_cases lib res r with
      ⟨e', heq⟩ | ⟨ad, e', heq⟩ | ⟨sp, heq⟩ | ⟨ad, b', heq⟩ | heq <;> rw [heq] at h
  · exact absurd h (by simp)
  · exact absurd h (by simp)
  · simp only [Except.ok.injEq, Prod.mk.injEq] at h
    exact Or.inr (Or.inl ⟨sp, h.1.symm⟩)
  · simp only [Except.ok.injEq, Prod.mk.injEq] at h
    exact Or.inr (Or.inr ⟨ad, h.1.symm⟩)
  · simp only [Except.ok.injEq, Prod.mk.injEq] at h
    exact Or.inl h.1.symm

theorem homStep_err_shape (lib : StatsLib) (gv : List (List ℚ)) (r r' : AnovaResults)
    (e : String) (h : homStep lib gv r = .error (r', e)) : r' = r := by
  rcases homStep_cases lib gv r with
      ⟨e', heq⟩ | ⟨hlen, sp, heq⟩ | ⟨hlen, heq⟩ <;> rw [heq] at h
  · simp only [Except.error.injEq, Prod.mk.injEq] at h
    exact h.1.symm
  · exact absurd h (by simp)
  · exact absurd h (by simp)

theorem homStep_ok_shape (lib : StatsLib) (gv : List (List ℚ)) (r r' : AnovaResults)
    (b : Bool) (h : homStep lib gv r = .ok (r', b)) :
    (2 ≤ gv.length ∧ ∃ sp, r' = { r with levene_test := some sp } ∧
      b = decide (mkRat 5 100 ≤ sp.2)) ∨
    (gv.length < 2 ∧ r' = r ∧ b = false) := by
  rcases homStep_cases lib gv r with
      ⟨e', heq⟩ | ⟨hlen, sp, heq⟩ | ⟨hlen, heq⟩ <;> rw [heq] at h
  · exact absurd h (by simp)
  · simp only [Except.ok.injEq, Prod.mk.injEq] at h
    exact Or.inl ⟨hlen, sp, h.1.symm, h.2.symm⟩
  · simp only [Except.ok.injEq, Prod.mk.injEq] at h
    exact Or.inr ⟨hlen, h.1.symm, h.2.symm⟩

theorem kwStep_err_shape (lib : StatsLib) (gv : List (List ℚ)) (n hm : Bool)
    (r r' : AnovaResults) (e : String) (h : kwStep lib gv n hm r = .error (r', e)) :
    r' = r := by
  rcases kwStep_cases lib gv n hm r with
      ⟨e', heq⟩ | ⟨hcond, hlen, res, heq⟩ | heq <;> rw [heq] at h
  · simp only [Except.error.injEq, Prod.mk.injEq] at h
    exact h.1.symm
  · exact absurd h (by simp)
  · exact absurd h (by simp)

theorem kwStep_ok_shape (lib : StatsLib) (gv : List (List ℚ)) (n hm : Bool)
    (r r' : AnovaResults) (h : kwStep lib gv n hm r = .ok r') :
    r' = r ∨ ((!n || !hm) = true ∧ 2 ≤ gv.length ∧
      ∃ res, r' = { r with kruskal_test := some res }) := by
  rcases kwStep_cases lib gv n hm r with
      ⟨e', heq⟩ | ⟨hcond, hlen, res, heq⟩ | heq <;> rw [heq] at h
  · exact absurd h (by simp)
  · simp only [Except.ok.injEq] at h
    exact Or.inr ⟨hcond, hlen, res, h.symm⟩
  · simp only [Except.ok.injEq] at h
    exact Or.inl h.symm

/-! Branch equations for the individual steps. -/

theorem normStep_shapiro (lib : StatsLib) (res : List ℚ) (r : AnovaResults)
    (st p : ℚ) (h3 : 3 ≤ res.length) (h5 : res.length ≤ 5000)
    (hs : lib.shapiro res = .ok (st, p)) :
    normStep lib res r =
      .ok ({ r with shapiro_test := some (st, p) }, decide (mkRat 5 100 ≤ p)) := by
  unfold normStep
  rw [if_pos h3, if_pos h5, hs]

theorem normStep_anderson (lib : StatsLib) (res : List ℚ) (r : AnovaResults)
    (ad : AndersonResult) (idx : ℕ) (cv : ℚ) (h5 : 5000 < res.length)
    (ha : lib.anderson res = .ok ad)
    (hidx : ad.significance_level.findIdx? (fun s => decide (s = (5 : ℚ))) = some idx)
    (hcv : ad.critical_values[idx]? = some cv) :
    normStep lib res r =
      .ok ({ r with anderson_test := some ad }, decide (ad.statistic < cv)) := by
  unfold normStep
  rw [if_pos (by omega), if_neg (by omega), ha]
  simp only [hidx, hcv]

theorem normStep_small (lib : StatsLib) (res : List ℚ) (r : AnovaResults)
    (hlt : res.length < 3) : normStep lib res r = .ok (r, false) := by
  unfold normStep
  rw [if_neg (by omega)]

theorem homStep_levene (lib : StatsLib) (gv : List (List ℚ)) (r : AnovaResults)
    (st p : ℚ) (h2 : 2 ≤ gv.length) (hl : lib.levene gv = .ok (st, p)) :
    homStep lib gv r =
      .ok ({ r with levene_test := some (st, p) }, decide (mkRat 5 100 ≤ p)) := by
  unfold homStep
  rw [if_pos h2, hl]

theorem homStep_skip (lib : StatsLib) (gv : List (List ℚ)) (r : AnovaResults)
    (hlt : gv.length < 2) : homStep lib gv r = .ok (r, false) := by
  unfold homStep
  rw [if_neg (by omega)]

theorem kwStep_run (lib : StatsLib) (gv : List (List ℚ)) (n hm : Bool)
    (r : AnovaResults) (kr : ℚ × ℚ) (hcond : (!n || !hm) = true)
    (h2 : 2 ≤ gv.length) (hk : lib.kruskal gv = .ok kr) :
    kwStep lib gv n hm r = .ok { r with kruskal_test := some kr } := by
  unfold kwStep
  rw [if_pos hcond, if_pos h2, hk]

theorem kwStep_small (lib : StatsLib) (gv : List (List ℚ)) (n hm : Bool)
    (r : AnovaResults) (hlt : gv.length < 2) : kwStep lib gv n hm r = .ok r := by
  unfold kwStep
  split
  · rw [if_neg (by omega)]
  · rfl

theorem kwStep_notrigger (lib : StatsLib) (gv : List (List ℚ)) (n hm : Bool)
    (r : AnovaResults) (hcond : (!n || !hm) = false) :
    kwStep lib gv n hm r = .ok r := by
  unfold kwStep
  rw [hcond]
  rfl

/-! Dispatch equations for the Selector itself. -/

theorem perform_reject (lib : StatsLib) (var_cat : String)
    (rows : List (Option Level × Option ℚ))
    (h : nunique ((dropna rows).map Prod.fst) < 2 ∨ (dropna rows).length < 10) :
    perform_anova_for_variable lib var_cat rows =
      { var_cat := var_cat, error := some insufficientMsg } := by
  simp only [perform_anova_for_variable]
  rw [if_pos h]

theorem perform_ok (lib : StatsLib) (var_cat : String)
    (rows : List (Option Level × Option ℚ)) (r : AnovaResults)
    (hacc : ¬ (nunique ((dropna rows).map Prod.fst) < 2 ∨ (dropna rows).length < 10))
    (hbody : perform_body lib var_cat (dropna rows) = .ok r) :
    perform_anova_for_variable lib var_cat rows = r := by
  simp only [perform_anova_for_variable]
  rw [if_neg hacc, hbody]

theorem perform_err (lib : StatsLib) (var_cat : String)
    (rows : List (Option Level × Option ℚ)) (r : AnovaResults) (e : String)
    (hacc : ¬ (nunique ((dropna rows).map Prod.fst) < 2 ∨ (dropna rows).length < 10))
    (hbody : perform_body lib var_cat (dropna rows) = .error (r, e)) :
    perform_anova_for_variable lib var_cat rows = { r with error := some e } := by
  simp only [perform_anova_for_variable]
  rw [if_neg hacc, hbody]

theorem perform_body_eq (lib : StatsLib) (var_cat : String)
    (df : List (Level × ℚ)) (m : OlsModel) (table : List (String × ℚ))
    (r2 r4 : AnovaResults) (nok hok : Bool)
    (hfit : lib.ols_fit df = .ok m)
    (htab : lib.anova_lm m = .ok table)
    (hnorm : normStep lib m.resid (withTable var_cat m table) = .ok (r2, nok))
    (hhom : homStep lib (grupos_validos df) { r2 with normalidade_ok := some nok }
      = .ok (r4, hok)) :
    perform_body lib var_cat df =
      kwStep lib (grupos_validos df) nok hok
        { r4 with homocedasticidade_ok := some hok } := by
  simp only [perform_body, hfit, htab, hnorm, hhom]

/-! Global facts about the body of the try block, holding on every path. -/

theorem perform_body_err_kruskal (lib : StatsLib) (v : String)
    (df : List (Level × ℚ)) (r : AnovaResults) (e : String)
    (h : perform_body lib v df = .error (r, e)) : r.kruskal_test = none := by
  unfold perform_body at h
  cases hfit : lib.ols_fit df with
  | error e1 =>
    simp only [hfit, Except.error.injEq, Prod.mk.injEq] at h
    rw [← h.1]
  | ok m =>
    simp only [hfit] at h
    cases htab : lib.anova_lm m with
    | error e1 =>
      simp only [htab, Except.error.injEq, Prod.mk.injEq] at h
      rw [← h.1]
    | ok table =>
      simp only [htab] at h
      cases hnorm : normStep lib m.resid (withTable v m table) with
      | error re =>
        obtain ⟨rn, en⟩ := re
        simp only [hnorm, Except.error.injEq, Prod.mk.injEq] at h
        obtain ⟨h1, -⟩ := h
        subst h1
        rcases normStep_err_shape _ _ _ _ _ hnorm with rfl | ⟨ad, rfl⟩ <;> rfl
      | ok p2 =>
        obtain ⟨r2, nok⟩ := p2
        simp only [hnorm] at h
        cases hhom : homStep lib (grupos_validos df)
            { r2 with normalidade_ok := some nok } with
        | error re =>
          obtain ⟨rh, eh⟩ := re
          simp only [hhom, Except.error.injEq, Prod.mk.injEq] at h
          obtain ⟨h1, -⟩ := h
          subst h1
          have hsh := homStep_err_shape _ _ _ _ _ hhom
          subst hsh
          rcases normStep_ok_shape _ _ _ _ _ hnorm with rfl | ⟨sp, rfl⟩ | ⟨ad, rfl⟩ <;> rfl
        | ok p4 =>
          obtain ⟨r4, hok⟩ := p4
          simp only [hhom] at h
          have hsh := kwStep_err_shape _ _ _ _ _ _ _ h
          subst hsh
          rcases homStep_ok_shape _ _ _ _ _ hhom with ⟨hlen, sp, rfl, -⟩ | ⟨hlen, rfl, -⟩ <;>
            rcases normStep_ok_shape _ _ _ _ _ hnorm with rfl | ⟨sp2, rfl⟩ | ⟨ad, rfl⟩ <;> rfl

theorem perform_body_ok_k2l (lib : StatsLib) (v : String) (df : List (Level × ℚ))
    (r : AnovaResults) (h : perform_body lib v df = .ok r)
    (hk : r.kruskal_test.isSome = true) : r.levene_test.isSome = true := by
  unfold perform_body at h
  cases hfit : lib.ols_fit df with
  | error e1 => simp only [hfit] at h; exact absurd h (by simp)
  | ok m =>
    simp only [hfit] at h
    cases htab : lib.anova_lm m with
    | error e1 => simp only [htab] at h; exact absurd h (by simp)
    | ok table =>
      simp only [htab] at h
      cases hnorm : normStep lib m.resid (withTable v m table) with
      | error re => simp only [hnorm] at h; exact absurd h (by simp)
      | ok p2 =>
        obtain ⟨r2, nok⟩ := p2
        simp only [hnorm] at h
        cases hhom : homStep lib (grupos_validos df)
            { r2 with normalidade_ok := some nok } with
        | error re => simp only [hhom] at h; exact absurd h (by simp)
        | ok p4 =>
          obtain ⟨r4, hok⟩ := p4
          simp only [hhom] at h
          rcases kwStep_ok_shape _ _ _ _ _ _ h with rfl | ⟨hcond, hlen, res, rfl⟩
          · rcases homStep_ok_shape _ _ _ _ _ hhom with ⟨hlen, sp, rfl, -⟩ | ⟨hlen, rfl, -⟩ <;>
              rcases normStep_ok_shape _ _ _ _ _ hnorm with rfl | ⟨sp2, rfl⟩ | ⟨ad, rfl⟩ <;>
                simp [withTable] at hk
          · rcases homStep_ok_shape _ _ _ _ _ hhom with ⟨hlen2, sp, rfl, -⟩ | ⟨hlen2, rfl, -⟩
            · simp
            · omega

theorem perform_body_table_fields (lib : StatsLib) (v : String)
    (df : List (Level × ℚ)) (m : OlsModel) (table : List (String × ℚ))
    (hfit : lib.ols_fit df = .ok m) (htab : lib.anova_lm m = .ok table) :
    (∀ r e, perform_body lib v df = .error (r, e) →
      r.p_valor_anova = some (p_from_table v table) ∧ r.anova_table = some table ∧
      r.residuos_count = some m.resid.length) ∧
    (∀ r, perform_body lib v df = .ok r →
      r.p_valor_anova = some (p_from_table v table) ∧ r.anova_table = some table ∧
      r.residuos_count = some m.resid.length) := by
  constructor
  · intro r e h
    unfold perform_body at h
    simp only [hfit, htab] at h
    cases hnorm : normStep lib m.resid (withTable v m table) with
    | error re =>
      obtain ⟨rn, en⟩ := re
      simp only [hnorm, Except.error.injEq, Prod.mk.injEq] at h
      obtain ⟨h1, -⟩ := h
      subst h1
      rcases normStep_err_shape _ _ _ _ _ hnorm with rfl | ⟨ad, rfl⟩ <;>
        exact ⟨rfl, rfl, rfl⟩
    | ok p2 =>
      obtain ⟨r2, nok⟩ := p2
      simp only [hnorm] at h
      cases hhom : homStep lib (grupos_validos df)
          { r2 with normalidade_ok := some nok } with
      | error re =>
        obtain ⟨rh, eh⟩ := re
        simp only [hhom, Except.error.injEq, Prod.mk.injEq] at h
        obtain ⟨h1, -⟩ := h
        subst h1
        have hsh := homStep_err_shape _ _ _ _ _ hhom
        subst hsh
        rcases normStep_ok_shape _ _ _ _ _ hnorm with rfl | ⟨sp, rfl⟩ | ⟨ad, rfl⟩ <;>
          exact ⟨rfl, rfl, rfl⟩
      | ok p4 =>
        obtain ⟨r4, hok⟩ := p4
        simp only [hhom] at h
        have hsh := kwStep_err_shape _ _ _ _ _ _ _ h
        subst hsh
        rcases homStep_ok_shape _ _ _ _ _ hhom with ⟨hlen, sp, rfl, -⟩ | ⟨hlen, rfl, -⟩ <;>
          rcases normStep_ok_shape _ _ _ _ _ hnorm with rfl | ⟨sp2, rfl⟩ | ⟨ad, rfl⟩ <;>
            exact ⟨rfl, rfl, rfl⟩
  · intro r h
    unfold perform_body at h
    simp only [hfit, htab] at h
    cases hnorm : normStep lib m.resid (withTable v m table) with
    | error re => simp only [hnorm] at h; exact absurd h (by simp)
    | ok p2 =>
      obtain ⟨r2, nok⟩ := p2
      simp only [hnorm] at h
      cases hhom : homStep lib (grupos_validos df)
          { r2 with normalidade_ok := some nok } with
      | error re => simp only [hhom] at h; exact absurd h (by simp)
      | ok p4 =>
        obtain ⟨r4, hok⟩ := p4
        simp only [hhom] at h
        rcases kwStep_ok_shape _ _ _ _ _ _ h with rfl | ⟨hcond, hlen, res, rfl⟩ <;>
          rcases homStep_ok_shape _ _ _ _ _ hhom with ⟨hlen2, sp, rfl, -⟩ | ⟨hlen2, rfl, -⟩ <;>
            rcases normStep_ok_shape _ _ _ _ _ hnorm with rfl | ⟨sp2, rfl⟩ | ⟨ad, rfl⟩ <;>
              exact ⟨rfl, rfl, rfl⟩

/-! Field lemmas about the Selector result on a given path. -/

theorem perform_p_valor (lib : StatsLib) (var_cat : String)
    (rows : List (Option Level × Option ℚ)) (m : OlsModel)
    (table : List (String × ℚ))
    (hacc : ¬ (nunique ((dropna rows).map Prod.fst) < 2 ∨ (dropna rows).length < 10))
    (hfit : lib.ols_fit (dropna rows) = .ok m)
    (htab : lib.anova_lm m = .ok table) :
    (perform_anova_for_variable lib var_cat rows).p_valor_anova =
      some (p_from_table var_cat table) ∧
    (perform_anova_for_variable lib var_cat rows).anova_table = some table ∧
    (perform_anova_for_variable lib var_cat rows).residuos_count =
      some m.resid.length := by
  cases hbody : perform_body lib var_cat (dropna rows) with
  | error re =>
    obtain ⟨r, e⟩ := re
    rw [perform_err lib var_cat rows r e hacc hbody]
    exact (perform_body_table_fields lib var_cat (dropna rows) m table hfit htab).1
      r e hbody
  | ok r =>
    rw [perform_ok lib var_cat rows r hacc hbody]
    exact (perform_body_table_fields lib var_cat (dropna rows) m table hfit htab).2
      r hbody

theorem perform_norm_fields (lib : StatsLib) (var_cat : String)
    (rows : List (Option Level × Option ℚ)) (m : OlsModel)
    (table : List (String × ℚ)) (r2 : AnovaResults) (nok : Bool)
    (hacc : ¬ (nunique ((dropna rows).map Prod.fst) < 2 ∨ (dropna rows).length < 10))
    (hfit : lib.ols_fit (dropna rows) = .ok m)
    (htab : lib.anova_lm m = .ok table)
    (hnorm : normStep lib m.resid (withTable var_cat m table) = .ok (r2, nok)) :
    (perform_anova_for_variable lib var_cat rows).shapiro_test = r2.shapiro_test ∧
    (perform_anova_for_variable lib var_cat rows).anderson_test = r2.anderson_test ∧
    (perform_anova_for_variable lib var_cat rows).normalidade_ok = some nok := by
  cases hhom : homStep lib (grupos_validos (dropna rows))
      { r2 with normalidade_ok := some nok } with
  | error re =>
    obtain ⟨rh, eh⟩ := re
    have hbody : perform_body lib var_cat (dropna rows) = .error (rh, eh) := by
      simp only [perform_body, hfit, htab, hnorm, hhom]
    rw [perform_err lib var_cat rows rh eh hacc hbody]
    have hsh := homStep_err_shape _ _ _ _ _ hhom
    subst hsh
    exact ⟨rfl, rfl, rfl⟩
  | ok p4 =>
    obtain ⟨r4, hok⟩ := p4
    have hbody := perform_body_eq lib var_cat (dropna rows) m table r2 r4 nok hok
      hfit htab hnorm hhom
    cases hres : perform_body lib var_cat (dropna rows) with
    | error re =>
      obtain ⟨r, e⟩ := re
      have hkw : kwStep lib (grupos_validos (dropna rows)) nok hok
          { r4 with homocedasticidade_ok := some hok } = .error (r, e) := by
        rw [← hbody]; exact hres
      have hsh := kwStep_err_shape _ _ _ _ _ _ _ hkw
      subst hsh
      rw [perform_err lib var_cat rows _ e hacc hres]
      rcases homStep_ok_shape _ _ _ _ _ hhom with ⟨-, sp, rfl, -⟩ | ⟨-, rfl, -⟩ <;>
        exact ⟨rfl, rfl, rfl⟩
    | ok r =>
      have hkw : kwStep lib (grupos_validos (dropna rows)) nok hok
          { r4 with homocedasticidade_ok := some hok } = .ok r := by
        rw [← hbody]; exact hres
      rw [perform_ok lib var_cat rows r hacc hres]
      rcases kwStep_ok_shape _ _ _ _ _ _ hkw with rfl | ⟨-, -, res, rfl⟩ <;>
        rcases homStep_ok_shape _ _ _ _ _ hhom with ⟨-, sp, rfl, -⟩ | ⟨-, rfl, -⟩ <;>
          exact ⟨rfl, rfl, rfl⟩

theorem perform_hom_fields (lib : StatsLib) (var_cat : String)
    (rows : List (Option Level × Option ℚ)) (m : OlsModel)
    (table : List (String × ℚ)) (r2 r4 : AnovaResults) (nok hok : Bool)
    (hacc : ¬ (nunique ((dropna rows).map Prod.fst) < 2 ∨ (dropna rows).length < 10))
    (hfit : lib.ols_fit (dropna rows) = .ok m)
    (htab : lib.anova_lm m = .ok table)
    (hnorm : normStep lib m.resid (withTable var_cat m table) = .ok (r2, nok))
    (hhom : homStep lib (grupos_validos (dropna rows))
      { r2 with normalidade_ok := some nok } = .ok (r4, hok)) :
    (perform_anova_for_variable lib var_cat rows).normalidade_ok = some nok ∧
    (perform_anova_for_variable lib var_cat rows).homocedasticidade_ok = some hok ∧
    (perform_anova_for_variable lib var_cat rows).levene_test = r4.levene_test := by
  have hbody := perform_body_eq lib var_cat (dropna rows) m table r2 r4 nok hok
    hfit htab hnorm hhom
  cases hres : perform_body lib var_cat (dropna rows) with
  | error re =>
    obtain ⟨r, e⟩ := re
    have hkw : kwStep lib (grupos_validos (dropna rows)) nok hok
        { r4 with homocedasticidade_ok := some hok } = .error (r, e) := by
      rw [← hbody]; exact hres
    have hsh := kwStep_err_shape _ _ _ _ _ _ _ hkw
    subst hsh
    rw [perform_err lib var_cat rows _ e hacc hres]
    rcases homStep_ok_shape _ _ _ _ _ hhom with ⟨-, sp, rfl, -⟩ | ⟨-, rfl, -⟩ <;>
      exact ⟨rfl, rfl, rfl⟩
  | ok r =>
    have hkw : kwStep lib (grupos_validos (dropna rows)) nok hok
        { r4 with homocedasticidade_ok := some hok } = .ok r := by
      rw [← hbody]; exact hres
    rw [perform_ok lib var_cat rows r hacc hres]
    rcases kwStep_ok_shape _ _ _ _ _ _ hkw with rfl | ⟨-, -, res, rfl⟩ <;>
      rcases homStep_ok_shape _ _ _ _ _ hhom with ⟨-, sp, rfl, -⟩ | ⟨-, rfl, -⟩ <;>
        exact ⟨rfl, rfl, rfl⟩

/-! The ten claims. -/

/-- Claim C1: for every accepted sample whose analysis completes, the
Kruskal-Wallis result is present in the Decision Record if and only if the
normality verdict fails or the homogeneity verdict fails, and at least 2
valid groups remain; it is never recorded otherwise, and when recorded it
is the result of running the test over exactly the same valid groups that
the Levene step used. -/
theorem C1_kruskal_iff_fallback (lib : StatsLib) (var_cat : String)
    (rows : List (Option Level × Option ℚ)) (m : OlsModel)
    (table : List (String × ℚ)) (r2 r4 : AnovaResults) (nok hok : Bool)
    (hacc : ¬ (nunique ((dropna rows).map Prod.fst) < 2 ∨ (dropna rows).length < 10))
    (hfit : lib.ols_fit (dropna rows) = .ok m)
    (htab : lib.anova_lm m = .ok table)
    (hnorm : normStep lib m.resid (withTable var_cat m table) = .ok (r2, nok))
    (hhom : homStep lib (grupos_validos (dropna rows))
      { r2 with normalidade_ok := some nok } = .ok (r4, hok)) :
    (perform_anova_for_variable lib var_cat rows).normalidade_ok = some nok ∧
    (perform_anova_for_variable lib var_cat rows).homocedasticidade_ok = some hok ∧
    ((!nok || !hok) = true → 2 ≤ (grupos_validos (dropna rows)).length →
      ∀ kr, lib.kruskal (grupos_validos (dropna rows)) = .ok kr →
        (perform_anova_for_variable lib var_cat rows).kruskal_test = some kr) ∧
    (¬ ((!nok || !hok) = true ∧ 2 ≤ (grupos_validos (dropna rows)).length) →
      (perform_anova_for_variable lib var_cat rows).kruskal_test = none) := by
  have hfields := perform_hom_fields lib var_cat rows m table r2 r4 nok hok
    hacc hfit htab hnorm hhom
  refine ⟨hfields.1, hfields.2.1, ?_, ?_⟩
  · intro hcond hlen kr hkr
    have hbody := perform_body_eq lib var_cat (dropna rows) m table r2 r4 nok hok
      hfit htab hnorm hhom
    rw [kwStep_run lib _ nok hok _ kr hcond hlen hkr] at hbody
    rw [perform_ok lib var_cat rows _ hacc hbody]
  · intro hncond
    have hbody := perform_body_eq lib var_cat (dropna rows) m table r2 r4 nok hok
      hfit htab hnorm hhom
    rcases Decidable.not_and_iff_or_not.mp hncond with hc | hlen
    · rw [kwStep_notrigger lib _ nok hok _ (Bool.not_eq_true _ ▸ hc)] at hbody
      rw [perform_ok lib var_cat rows _ hacc hbody]
      rcases homStep_ok_shape _ _ _ _ _ hhom with ⟨-, sp, rfl, -⟩ | ⟨-, rfl, -⟩ <;>
        rcases normStep_ok_shape _ _ _ _ _ hnorm with rfl | ⟨sp2, rfl⟩ | ⟨ad, rfl⟩ <;> rfl
    · rw [kwStep_small lib _ nok hok _ (by omega)] at hbody
      rw [perform_ok lib var_cat rows _ hacc hbody]
      rcases homStep_ok_shape _ _ _ _ _ hhom with ⟨-, sp, rfl, -⟩ | ⟨-, rfl, -⟩ <;>
        rcases normStep_ok_shape _ _ _ _ _ hnorm with rfl | ⟨sp2, rfl⟩ | ⟨ad, rfl⟩ <;> rfl

theorem C1_witness :
    (perform_anova_for_variable testLib "x" testRows).kruskal_test =
      some (2, mkRat 1 25) := by
  have h := C1_kruskal_iff_fallback testLib "x" testRows
    ⟨(dropna testRows).map Prod.snd⟩ testTable _ _ false true
    (by decide) rfl rfl rfl rfl
  exact h.2.2.1 (by decide) (by decide) (2, mkRat 1 25) rfl

/-- Claim C2: a sample that, after pairwise removal of rows with a missing
factor or missing response, has fewer than 2 distinct levels or fewer than
10 observations is rejected with the insufficiency message; the returned
record carries no ANOVA table and no test result, and the oracle is never
consulted (the result is the same for any two oracles). -/
theorem C2_insufficient_data_rejection (lib lib2 : StatsLib) (var_cat : String)
    (rows : List (Option Level × Option ℚ))
    (h : nunique ((dropna rows).map Prod.fst) < 2 ∨ (dropna rows).length < 10) :
    perform_anova_for_variable lib var_cat rows =
      { var_cat := var_cat, error := some insufficientMsg } ∧
    (perform_anova_for_variable lib var_cat rows).anova_table = none ∧
    (perform_anova_for_variable lib var_cat rows).shapiro_test = none ∧
    (perform_anova_for_variable lib var_cat rows).anderson_test = none ∧
    (perform_anova_for_variable lib var_cat rows).levene_test = none ∧
    (perform_anova_for_variable lib var_cat rows).kruskal_test = none ∧
    perform_anova_for_variable lib var_cat rows =
      perform_anova_for_variable lib2 var_cat rows := by
  have h1 := perform_reject lib var_cat rows h
  have h2 := perform_reject lib2 var_cat rows h
  rw [h1, h2]
  exact ⟨rfl, rfl, rfl, rfl, rfl, rfl, rfl⟩

theorem C2_witness :
    perform_anova_for_variable testLib "x" oneLevelRows =
      { var_cat := "x", error := some insufficientMsg } :=
  (C2_insufficient_data_rejection testLib failLib "x" oneLevelRows (by decide)).1

/-- Claim C3: for every accepted sample whose fit succeeds, the normality
check branches on the residual count: Shapiro-Wilk for counts in 3..5000
with verdict p at least 0.05, Anderson-Darling above 5000 with verdict
statistic strictly below the 5 percent critical value, and for counts
below 3 no test is recorded and the verdict is false. -/
theorem C3_normality_branching (lib : StatsLib) (var_cat : String)
    (rows : List (Option Level × Option ℚ)) (m : OlsModel)
    (table : List (String × ℚ))
    (hacc : ¬ (nunique ((dropna rows).map Prod.fst) < 2 ∨ (dropna rows).length < 10))
    (hfit : lib.ols_fit (dropna rows) = .ok m)
    (htab : lib.anova_lm m = .ok table) :
    (∀ st p, 3 ≤ m.resid.length → m.resid.length ≤ 5000 →
      lib.shapiro m.resid = .ok (st, p) →
      (perform_anova_for_variable lib var_cat rows).shapiro_test = some (st, p) ∧
      (perform_anova_for_variable lib var_cat rows).anderson_test = none ∧
      (perform_anova_for_variable lib var_cat rows).normalidade_ok =
        some (decide (mkRat 5 100 ≤ p))) ∧
    (∀ ad idx cv, 5000 < m.resid.length →
      lib.anderson m.resid = .ok ad →
      ad.significance_level.findIdx? (fun s => decide (s = (5 : ℚ))) = some idx →
      ad.critical_values[idx]? = some cv →
      (perform_anova_for_variable lib var_cat rows).anderson_test = some ad ∧
      (perform_anova_for_variable lib var_cat rows).shapiro_test = none ∧
      (perform_anova_for_variable lib var_cat rows).normalidade_ok =
        some (decide (ad.statistic < cv))) ∧
    (m.resid.length < 3 →
      (perform_anova_for_variable lib var_cat rows).shapiro_test = none ∧
      (perform_anova_for_variable lib var_cat rows).anderson_test = none ∧
      (perform_anova_for_variable lib var_cat rows).normalidade_ok = some false) := by
  refine ⟨?_, ?_, ?_⟩
  · intro st p h3 h5 hs
    exact perform_norm_fields lib var_cat rows m table _ _ hacc hfit htab
      (normStep_shapiro lib m.resid (withTable var_cat m table) st p h3 h5 hs)
  · intro ad idx cv h5 ha hidx hcv
    have hh := perform_norm_fields lib var_cat rows m table _ _ hacc hfit htab
      (normStep_anderson lib m.resid (withTable var_cat m table) ad idx cv h5 ha hidx hcv)
    exact ⟨hh.2.1, hh.1, hh.2.2⟩
  · intro hlt
    exact perform_norm_fields lib var_cat rows m table _ _ hacc hfit htab
      (normStep_small lib m.resid (withTable var_cat m table) hlt)

theorem C3_witness :
    (perform_anova_for_variable testLib "x" testRows).normalidade_ok =
      some false := by
  have h := C3_normality_branching testLib "x" testRows
    ⟨(dropna testRows).map Prod.snd⟩ testTable (by decide) rfl rfl
  exact ((h.1 (mkRat 9 10) (mkRat 1 100) (by decide) (by decide) rfl).2.2).trans
    (by decide)

/-- Claim C4: for every accepted sample whose fit succeeds, the responses
are partitioned by factor level and levels with fewer than 2 observations
are discarded; Levene runs exactly when at least 2 valid groups remain,
with verdict p at least 0.05, and with fewer than 2 valid groups the test
entry is absent and the verdict is false. -/
theorem C4_levene_gating (lib : StatsLib) (var_cat : String)
    (rows : List (Option Level × Option ℚ)) (m : OlsModel)
    (table : List (String × ℚ)) (r2 : AnovaResults) (nok : Bool)
    (hacc : ¬ (nunique ((dropna rows).map Prod.fst) < 2 ∨ (dropna rows).length < 10))
    (hfit : lib.ols_fit (dropna rows) = .ok m)
    (htab : lib.anova_lm m = .ok table)
    (hnorm : normStep lib m.resid (withTable var_cat m table) = .ok (r2, nok)) :
    grupos_validos (dropna rows) =
      (grupos (dropna rows)).filter (fun g => decide (2 ≤ g.length)) ∧
    (∀ st p, 2 ≤ (grupos_validos (dropna rows)).length →
      lib.levene (grupos_validos (dropna rows)) = .ok (st, p) →
      (perform_anova_for_variable lib var_cat rows).levene_test = some (st, p) ∧
      (perform_anova_for_variable lib var_cat rows).homocedasticidade_ok =
        some (decide (mkRat 5 100 ≤ p))) ∧
    ((grupos_validos (dropna rows)).length < 2 →
      (perform_anova_for_variable lib var_cat rows).levene_test = none ∧
      (perform_anova_for_variable lib var_cat rows).homocedasticidade_ok =
        some false) := by
  refine ⟨rfl, ?_, ?_⟩
  · intro st p h2 hl
    have hhom := homStep_levene lib (grupos_validos (dropna rows))
      { r2 with normalidade_ok := some nok } st p h2 hl
    have hfields := perform_hom_fields lib var_cat rows m table r2 _ nok _
      hacc hfit htab hnorm hhom
    exact ⟨hfields.2.2, hfields.2.1⟩
  · intro hlt
    have hhom := homStep_skip lib (grupos_validos (dropna rows))
      { r2 with normalidade_ok := some nok } hlt
    have hfields := perform_hom_fields lib var_cat rows m table r2 _ nok _
      hacc hfit htab hnorm hhom
    refine ⟨?_, hfields.2.1⟩
    rw [hfields.2.2]
    rcases normStep_ok_shape _ _ _ _ _ hnorm with rfl | ⟨sp, rfl⟩ | ⟨ad, rfl⟩ <;> rfl

theorem C4_witness :
    (perform_anova_for_variable testLib "x" testRows).levene_test =
      some (1, mkRat 1 2) := by
  have h := C4_levene_gating testLib "x" testRows
    ⟨(dropna testRows).map Prod.snd⟩ testTable _ false (by decide) rfl rfl rfl
  exact (h.2.1 1 (mkRat 1 2) (by decide) rfl).1

/-- Claim C5: an exception raised by the model fit or by any statistical
test call inside the try block is caught and surfaced as the error entry of
that variable's record (the Selector returns a record, never the
exception), and in the per-variable loop each variable's outcome is
computed independently, so one variable's error record leaves the other
selected variables' analyses unchanged. -/
theorem C5_errors_contained (lib : StatsLib)
    (data : String → List (Option Level × Option ℚ))
    (pre post : List String) (v : String)
    (rows : List (Option Level × Option ℚ)) (r : AnovaResults) (e : String)
    (hacc : ¬ (nunique ((dropna rows).map Prod.fst) < 2 ∨ (dropna rows).length < 10))
    (hbody : perform_body lib v (dropna rows) = .error (r, e)) :
    perform_anova_for_variable lib v rows = { r with error := some e } ∧
    (perform_anova_for_variable lib v rows).error = some e ∧
    analysis_loop lib data (pre ++ v :: post) =
      analysis_loop lib data pre ++ [(v, analyze_one lib data v)] ++
        analysis_loop lib data post := by
  refine ⟨perform_err lib v rows r e hacc hbody, ?_, ?_⟩
  · rw [perform_err lib v rows r e hacc hbody]
  · simp [analysis_loop]

theorem C5_witness :
    (perform_anova_for_variable failLib "x" testRows).error =
      some "levene failed" := by
  exact (C5_errors_contained failLib (fun _ => testRows) ["a"] ["b"] "x" testRows
    _ "levene failed" (by decide) rfl).2.1

/-- Claim C6: for every accepted sample whose fit succeeds, the reported
main-effect p-value is the PR(>F) entry of the table row labelled with the
factor term C(var_cat) when such a row exists, and otherwise the entry of
the first available row of the decomposition. -/
theorem C6_pvalue_row_selection (lib : StatsLib) (var_cat : String)
    (rows : List (Option Level × Option ℚ)) (m : OlsModel)
    (table : List (String × ℚ))
    (hacc : ¬ (nunique ((dropna rows).map Prod.fst) < 2 ∨ (dropna rows).length < 10))
    (hfit : lib.ols_fit (dropna rows) = .ok m)
    (htab : lib.anova_lm m = .ok table) :
    (∀ row, table.find? (fun rw => decide (rw.1 = factorLabel var_cat)) = some row →
      (perform_anova_for_variable lib var_cat rows).p_valor_anova =
        some (some row.2)) ∧
    (table.find? (fun rw => decide (rw.1 = factorLabel var_cat)) = none →
      (perform_anova_for_variable lib var_cat rows).p_valor_anova =
        some (table.head?.map Prod.snd)) := by
  have hp := (perform_p_valor lib var_cat rows m table hacc hfit htab).1
  constructor
  · intro row hrow
    rw [hp]
    unfold p_from_table
    rw [hrow]
  · intro hnone
    rw [hp]
    unfold p_from_table
    rw [hnone]

theorem C6_witness :
    (perform_anova_for_variable testLib "x" testRows).p_valor_anova =
      some (some (mkRat 1 2)) := by
  exact (C6_pvalue_row_selection testLib "x" testRows
    ⟨(dropna testRows).map Prod.snd⟩ testTable (by decide) rfl rfl).1
    ("C(x)", mkRat 1 2) rfl

/-- Claim C7: the Selector is deterministic and free of hidden state: its
Decision Record is a function of the oracle, the variable name and the
cleaned (factor, response) sample alone, so two runs on an identical
cleaned sample return identical records. -/
theorem C7_selector_deterministic (lib : StatsLib) (var_cat : String)
    (rows rows2 : List (Option Level × Option ℚ))
    (h : dropna rows = dropna rows2) :
    perform_anova_for_variable lib var_cat rows =
      perform_anova_for_variable lib var_cat rows2 := by
  unfold perform_anova_for_variable
  rw [h]

theorem C7_witness :
    perform_anova_for_variable testLib "x" testRows =
      perform_anova_for_variable testLib "x"
        ((dropna testRows).map fun r => (some r.1, some r.2)) :=
  C7_selector_deterministic testLib "x" testRows _ (by decide)

/-- Claim C8: for every accepted sample whose fit succeeds and whose
decomposition rows all carry p-values in the unit interval, the reported
main-effect p-value, when present, lies in the closed interval from 0
to 1 (the selection only ever picks an entry of the table). -/
theorem C8_pvalue_in_unit_interval (lib : StatsLib) (var_cat : String)
    (rows : List (Option Level × Option ℚ)) (m : OlsModel)
    (table : List (String × ℚ)) (p : ℚ)
    (hacc : ¬ (nunique ((dropna rows).map Prod.fst) < 2 ∨ (dropna rows).length < 10))
    (hfit : lib.ols_fit (dropna rows) = .ok m)
    (htab : lib.anova_lm m = .ok table)
    (hrange : ∀ row ∈ table, 0 ≤ row.2 ∧ row.2 ≤ 1)
    (hp : (perform_anova_for_variable lib var_cat rows).p_valor_anova =
      some (some p)) :
    0 ≤ p ∧ p ≤ 1 := by
  have hpv := (perform_p_valor lib var_cat rows m table hacc hfit htab).1
  rw [hpv] at hp
  have hpt : p_from_table var_cat table = some p := by simpa using hp
  unfold p_from_table at hpt
  cases hfind : table.find? (fun row => decide (row.1 = factorLabel var_cat)) with
  | some row =>
    rw [hfind] at hpt
    simp only [Option.some.injEq] at hpt
    subst hpt
    exact hrange row (List.mem_of_find?_eq_some hfind)
  | none =>
    rw [hfind] at hpt
    cases table with
    | nil => simp at hpt
    | cons a l =>
      simp at hpt
      subst hpt
      exact hrange a (List.mem_cons_self a l)

theorem C8_witness : (0 : ℚ) ≤ mkRat 1 2 ∧ (mkRat 1 2 : ℚ) ≤ 1 := by
  exact C8_pvalue_in_unit_interval testLib "x" testRows
    ⟨(dropna testRows).map Prod.snd⟩ testTable (mkRat 1 2)
    (by decide) rfl rfl (by decide) (by decide)

/-- Claim C9: in every Decision Record the Selector returns, the presence
of a Kruskal-Wallis entry implies the presence of a Levene entry: both are
gated on the same valid groups, and the fallback can never appear in a
record without the homogeneity test. -/
theorem C9_kruskal_implies_levene (lib : StatsLib) (var_cat : String)
    (rows : List (Option Level × Option ℚ))
    (h : (perform_anova_for_variable lib var_cat rows).kruskal_test.isSome = true) :
    (perform_anova_for_variable lib var_cat rows).levene_test.isSome = true := by
  by_cases hacc : nunique ((dropna rows).map Prod.fst) < 2 ∨ (dropna rows).length < 10
  · rw [perform_reject lib var_cat rows hacc] at h
    simp at h
  · cases hbody : perform_body lib var_cat (dropna rows) with
    | error re =>
      obtain ⟨r, e⟩ := re
      rw [perform_err lib var_cat rows r e hacc hbody] at h
      have hk : r.kruskal_test.isSome = true := h
      rw [perform_body_err_kruskal lib var_cat (dropna rows) r e hbody] at hk
      simp at hk
    | ok r =>
      rw [perform_ok lib var_cat rows r hacc hbody] at h ⊢
      exact perform_body_ok_k2l lib var_cat (dropna rows) r hbody h

theorem C9_witness :
    (perform_anova_for_variable testLib "x" testRows).levene_test.isSome = true :=
  C9_kruskal_implies_levene testLib "x" testRows (by decide)

/-- Claim C10: whenever fewer than 2 valid groups remain after filtering,
Levene is not run and the stored homogeneity verdict is false, so the
skipped check alone satisfies the boolean trigger of the fallback
condition; the Kruskal-Wallis entry is nevertheless absent because the
group-count guard also fails. -/
theorem C10_skipped_homogeneity_is_false (lib : StatsLib) (var_cat : String)
    (rows : List (Option Level × Option ℚ)) (m : OlsModel)
    (table : List (String × ℚ)) (r2 : AnovaResults) (nok : Bool)
    (hacc : ¬ (nunique ((dropna rows).map Prod.fst) < 2 ∨ (dropna rows).length < 10))
    (hfit : lib.ols_fit (dropna rows) = .ok m)
    (htab : lib.anova_lm m = .ok table)
    (hnorm : normStep lib m.resid (withTable var_cat m table) = .ok (r2, nok))
    (hlen : (grupos_validos (dropna rows)).length < 2) :
    (perform_anova_for_variable lib var_cat rows).homocedasticidade_ok =
      some false ∧
    (perform_anova_for_variable lib var_cat rows).levene_test = none ∧
    (!nok || !false) = true ∧
    (perform_anova_for_variable lib var_cat rows).kruskal_test = none := by
  have hhom := homStep_skip lib (grupos_validos (dropna rows))
    { r2 with normalidade_ok := some nok } hlen
  have hbody := perform_body_eq lib var_cat (dropna rows) m table r2 _ nok false
    hfit htab hnorm hhom
  rw [kwStep_small lib _ nok false _ hlen] at hbody
  rw [perform_ok lib var_cat rows _ hacc hbody]
  refine ⟨rfl, ?_, by simp, ?_⟩
  · rcases normStep_ok_shape _ _ _ _ _ hnorm with rfl | ⟨sp, rfl⟩ | ⟨ad, rfl⟩ <;> rfl
  · rcases normStep_ok_shape _ _ _ _ _ hnorm with rfl | ⟨sp, rfl⟩ | ⟨ad, rfl⟩ <;> rfl

theorem C10_witness :
    (perform_anova_for_variable testLib "x" oneGroupRows).homocedasticidade_ok =
      some false ∧
    (perform_anova_for_variable testLib "x" oneGroupRows).kruskal_test = none := by
  have h := C10_skipped_homogeneity_is_false testLib "x" oneGroupRows
    ⟨(dropna oneGroupRows).map Prod.snd⟩ testTable _ false
    (by decide) rfl rfl rfl (by decide)
  exact ⟨h.1, h.2.2.2⟩

end AmesAnova
